import Mathlib

/-!
A shallow embedding of the zombie epidemiological extension classes
(`Zombie`, `DeathZombies`, `KillZombies`, `zombie_vaccine`, `ZombieConnector`)
built on an external agent-based simulation framework.

Collaborator model (the framework is an external dependency, not part of this
repository). Modelled from the spec: the population provider owns the
per-agent arrays (alive flags, per-disease infection/susceptibility arrays)
and the registry of agent UIDs; dead agents leave the provider's active
index, so converting a boolean mask to UIDs, counting over an array, or
indexing an array by a boolean mask ranges over living agents only, while
indexing by an explicit UID list acts directly on the given UIDs.  The draw
provider is modelled as an oracle function from UIDs to draw outcomes; its
Bernoulli filter keeps the candidates the oracle selects, and its
dual-partition mode returns the selected subset together with its complement.
Death requests are recorded in a ghost trace and schedule the agent's death
time at the current step.
-/

namespace ZombieSim

/-- Agent unique identifier. -/
abbrev UID := Nat

/-- Oracle outcomes of the external draw provider for one `set_prognoses`
call: the per-agent symptomatic Bernoulli draw (`p_symptomatic`), the
per-agent fast-phase duration draw (`dur_fast`), and the per-agent
immediate-death-on-infection Bernoulli draw (`p_death_on_zombie_infection`). -/
structure Draws where
  symp : UID → Bool
  durFast : UID → ℚ
  deathOnInf : UID → Bool

/-- State visible to the `Zombie` disease class: the population provider's
arrays (`ids`, `alive`, `tiDead`, death-request trace) together with the
disease's own per-agent arrays (`infected` from the SIR base, `symptomatic`,
`fast`, `ti_slow`) and the two cumulative counters.  `tiDead`/`tiSlow` are
float arrays whose unset entries are NaN; NaN compares false against any
number, modelled as `Option ℚ` with `none` for NaN. -/
structure ZState where
  ids : List UID
  alive : UID → Bool
  tiDead : UID → Option ℚ
  infected : UID → Bool
  symptomatic : UID → Bool
  fast : UID → Bool
  tiSlow : UID → Option ℚ
  deathRequests : List UID
  cumCongenital : ℕ
  cumDeaths : ℕ

/-- `x <= t` on a float array entry: false when the entry is NaN (unset). -/
def tiLe (x : Option ℚ) (t : ℚ) : Bool :=
  match x with
  | none => false
  | some v => decide (v ≤ t)

/-- `np.count_nonzero(self.sim.people.ti_dead <= self.ti)`: the number of
living agents whose scheduled death time is at or before step `ti` (array
reductions range over the provider's active index, i.e. living agents). -/
def countDeathsLe (s : ZState) (ti : ℚ) : ℕ :=
  (s.ids.filter (fun u => s.alive u && tiLe (s.tiDead u) ti)).length

/-- Modelled from the spec: the number of agents whose death time equals the
current step (the spec's stated increment of the death counter, for
comparison with the source's `ti_dead <= self.ti` count). -/
def countDeathsEqSpec (s : ZState) (ti : ℚ) : ℕ :=
  (s.ids.filter (fun u => s.alive u && (s.tiDead u == some ti))).length

/-- `people.request_death(uids)`: the provider schedules each requested
agent's death time at the current step and the request is recorded in the
ghost trace. -/
def requestDeathZ (ti : ℚ) (uids : List UID) (s : ZState) : ZState :=
  { s with
    tiDead := fun u => if uids.contains u then some ti else s.tiDead u
    deathRequests := s.deathRequests ++ uids }

/-- `Zombie.step_state()`: increments the death counter by the
`ti_dead <= ti` count, delegates base epidemic progression to the SIR base
class (the external collaborator, passed as `B`), then flips `fast` to false
for every living agent that is infected, fast, and whose fast-to-slow time
has arrived (`(self.infected & self.fast & (self.ti_slow <= self.ti)).uids`
ranges over living agents). -/
def Zombie.stepState (B : ZState → ZState) (ti : ℚ) (s : ZState) : ZState :=
  let s1 := { s with cumDeaths := s.cumDeaths + countDeathsLe s ti }
  let s2 := B s1
  let flip : UID → Bool := fun u =>
    s2.alive u && s2.infected u && s2.fast u && tiLe (s2.tiSlow u) ti
  { s2 with fast := fun u => if flip u then false else s2.fast u }

/-- `Zombie.set_prognoses(uids, sources)`: delegates to the SIR base class
(`P`, the external collaborator), draws symptomatic status for the targets,
schedules `ti_slow = ti + dur_fast` for the targets that are fast, then
filters the targets by the immediate-death Bernoulli draw, increments the
death counter by the size of that subset and requests their death. -/
def Zombie.setPrognoses (P : ZState → List UID → ZState) (d : Draws) (ti : ℚ)
    (s : ZState) (uids : List UID) : ZState :=
  let s1 := P s uids
  let s2 := { s1 with
    symptomatic := fun u => if uids.contains u then d.symp u else s1.symptomatic u }
  let fastUids := uids.filter (fun u => s2.fast u)
  let s3 := { s2 with
    tiSlow := fun u => if fastUids.contains u then some (ti + d.durFast u) else s2.tiSlow u }
  let deadUids := uids.filter d.deathOnInf
  requestDeathZ ti deadUids { s3 with cumDeaths := s3.cumDeaths + deadUids.length }

/-- `Zombie.set_congenital(target_uids, sources)`: increments the congenital
counter by the target count, then delegates to `set_prognoses` with the same
targets. -/
def Zombie.setCongenital (P : ZState → List UID → ZState) (d : Draws) (ti : ℚ)
    (s : ZState) (uids : List UID) : ZState :=
  Zombie.setPrognoses P d ti
    { s with cumCongenital := s.cumCongenital + uids.length } uids

/-- Per-disease module arrays visible to the interventions: infection flag,
symptomatic flag and relative susceptibility. -/
structure Disease where
  infected : UID → Bool
  symptomatic : UID → Bool
  relSus : UID → ℚ

/-- Simulation state visible to `DeathZombies`, `KillZombies` and
`zombie_vaccine`: the population provider's agent registry and alive flags,
the name-keyed disease registry, and ghost traces of the death requests
issued and of the candidate sets passed to the draw provider's Bernoulli
filter. -/
structure SimState where
  ids : List UID
  alive : UID → Bool
  diseases : List (String × Disease)
  deathRequests : List UID
  drawLog : List (List UID)

/-- `p.isPrefixOf s` over characters, spelled out. -/
def leadsWith : List Char → List Char → Bool
  | [], _ => true
  | _ :: _, [] => false
  | a :: p, b :: s => a == b && leadsWith p s

/-- Substring occurrence test over character lists. -/
def hasSub (p : List Char) : List Char → Bool
  | [] => p.isEmpty
  | c :: s => leadsWith p (c :: s) || hasSub p s

/-- Python's `'zombie' in name` on strings: substring containment. -/
def containsZombie (name : String) : Bool :=
  hasSub "zombie".toList name.toList

/-- `people.request_death(uids)` as seen by the interventions: the request
is recorded in the ghost trace. -/
def requestDeath (sim : SimState) (uids : List UID) : SimState :=
  { sim with deathRequests := sim.deathRequests ++ uids }

/-- The eligibility mask built by `KillZombies.step`: starts from
`~self.sim.people.alive.asnew()` and ORs in `infected & symptomatic` for
every registered disease whose name contains `"zombie"`. -/
def killEligibleMask (sim : SimState) (u : UID) : Bool :=
  sim.diseases.foldl
    (fun acc nd =>
      if containsZombie nd.1 then acc || (nd.2.infected u && nd.2.symptomatic u)
      else acc)
    (!sim.alive u)

/-- `eligible.uids`: the mask's UIDs; mask-to-UID conversion ranges over the
provider's active index, i.e. living agents. -/
def killEligibleUids (sim : SimState) : List UID :=
  sim.ids.filter (fun u => sim.alive u && killEligibleMask sim u)

/-- Modelled from the spec: the eligible set as the spec words it — the
union, over every disease whose name contains `"zombie"`, of the agents that
are infected and symptomatic in that disease (stated without reference to
the alive flags; for comparison with `killEligibleUids`). -/
def specEligibleUids (sim : SimState) : List UID :=
  sim.ids.filter (fun u =>
    sim.diseases.any (fun nd =>
      containsZombie nd.1 && nd.2.infected u && nd.2.symptomatic u))

/-- `KillZombies.step()`: if the current simulated year is strictly before
the first curve year `self.pars.year[0]` the method returns with no value
(Python `None`, modelled as `none`) and touches nothing; otherwise it passes
the eligible UIDs to the probability filter (logged in the ghost trace, the
subset selected by the oracle `pdraw`), requests death for the selected
subset and returns its size. -/
def killStep (year0 : ℚ) (pdraw : UID → Bool) (nowYear : ℚ)
    (sim : SimState) : Option ℕ × SimState :=
  if nowYear < year0 then (none, sim)
  else
    let elig := killEligibleUids sim
    let deathUids := elig.filter pdraw
    (some deathUids.length,
      requestDeath { sim with drawLog := sim.drawLog ++ [elig] } deathUids)

/-- The `not_zombie` mask of `DeathZombies.step`: starts from the alive mask
and ANDs in `~infected` for every disease whose name contains `"zombie"`. -/
def notZombieMask (sim : SimState) (u : UID) : Bool :=
  sim.diseases.foldl
    (fun acc nd => if containsZombie nd.1 then acc && !nd.2.infected u else acc)
    (sim.alive u)

/-- `not_zombie.uids`: living agents satisfying the `not_zombie` mask. -/
def notZombieUids (sim : SimState) : List UID :=
  sim.ids.filter (fun u => sim.alive u && notZombieMask sim u)

/-- Outcome of one `DeathZombies.step`: the updated simulation state, the
two partition classes returned by the dual-partition Bernoulli filter, the
disease module chosen to receive `set_prognoses` for the converted agents
(`none` when no agent converts), and the step's return value. -/
structure DZResult where
  sim : SimState
  zombieUids : List UID
  deathUids : List UID
  target : Option String
  ret : ℕ

/-- `DeathZombies.step()`: filters the living non-zombie agents by the
baseline death rate (oracle `drawDeath`), partitions the resulting death
candidates with the dual-partition Bernoulli filter
(`p_zombie_on_natural_death.filter(..., both=True)`, oracle `drawZombie`:
the selected subset and its complement), requests death for the natural
deaths when non-empty, picks the conversion target disease — `'zombie'` if
that exact name is registered, else `'slow_zombie'` — for the converted
agents when non-empty (the conversion itself delegates to that module's
`set_prognoses`, embedded separately as `Zombie.setPrognoses`), and returns
the number of natural deaths. -/
def deathStep (drawDeath drawZombie : UID → Bool) (sim : SimState) : DZResult :=
  let nz := notZombieUids sim
  let deathCand := nz.filter drawDeath
  let zUids := deathCand.filter drawZombie
  let dUids := deathCand.filter (fun u => !drawZombie u)
  let sim1 := { sim with drawLog := sim.drawLog ++ [nz, deathCand] }
  let sim2 := if dUids.isEmpty then sim1 else requestDeath sim1 dUids
  let target :=
    if zUids.isEmpty then none
    else some (if sim.diseases.any (fun nd => nd.1 == "zombie") then "zombie"
               else "slow_zombie")
  { sim := sim2, zombieUids := zUids, deathUids := dUids, target := target,
    ret := dUids.length }

/-- `people.zombie` attribute lookup: the registered disease named exactly
`"zombie"`, if any. -/
def zombieLookup (sim : SimState) : Option (String × Disease) :=
  sim.diseases.find? (fun nd => nd.1 == "zombie")

/-- The multiplicative factor applied to a recipient's relative
susceptibility: `1 - efficacy` in leaky mode, otherwise the agent's binary
draw (`np.random.binomial(1, 1 - efficacy)`, oracle `vd`) as a 0/1 factor. -/
def vaccFactor (efficacy : ℚ) (leaky : Bool) (vd : UID → Bool) (u : UID) : ℚ :=
  if leaky then 1 - efficacy else (if vd u then 1 else 0)

/-- `zombie_vaccine.administer(uids)`: multiplies
`people.zombie.rel_sus[uids]` by the vaccine factor.  The attribute lookup
fails (Python `AttributeError`, modelled as `none`) when no disease named
exactly `"zombie"` is registered; UID-list indexing acts directly on the
given UIDs (a duplicated UID is still multiplied once, as with NumPy fancy
indexing). -/
def vaccApply (efficacy : ℚ) (leaky : Bool) (vd : UID → Bool)
    (uids : List UID) (d : Disease) : Disease :=
  { d with relSus := fun u =>
      if uids.contains u then d.relSus u * vaccFactor efficacy leaky vd u
      else d.relSus u }

/-- The disease registry after a successful `administer`: `vaccApply`
applied to the entry named exactly `"zombie"`, every other entry kept. -/
def vaccUpdate (efficacy : ℚ) (leaky : Bool) (vd : UID → Bool)
    (uids : List UID) (sim : SimState) : SimState :=
  { sim with diseases := sim.diseases.map (fun nd =>
      if nd.1 == "zombie" then (nd.1, vaccApply efficacy leaky vd uids nd.2)
      else nd) }

/-- `zombie_vaccine.administer(uids)` proper: fails when the `"zombie"`
attribute lookup fails, else applies `vaccUpdate`. -/
def administer (efficacy : ℚ) (leaky : Bool) (vd : UID → Bool)
    (uids : List UID) (sim : SimState) : Option SimState :=
  match zombieLookup sim with
  | none => none
  | some _ => some (vaccUpdate efficacy leaky vd uids sim)

/-- The relative susceptibility of agent `u` in the disease named exactly
`"zombie"`, when that disease is registered. -/
def zombieRelSus (sim : SimState) (u : UID) : Option ℚ :=
  (zombieLookup sim).map (fun nd => nd.2.relSus u)

/-- State visible to `ZombieConnector.step`: the alive flags and the two
required disease modules `fast_zombie` and `slow_zombie` (infection flags
and relative-susceptibility arrays). -/
structure ConnState where
  ids : List UID
  alive : UID → Bool
  fastInfected : UID → Bool
  slowInfected : UID → Bool
  fastRelSus : UID → ℚ
  slowRelSus : UID → ℚ

/-- `ZombieConnector.step()`: sets each disease's relative susceptibility to
1 on the alive mask, then to the configured cross-protection factor on the
other disease's infection mask; boolean-mask indexing ranges over living
agents. -/
def connectorStep (factor : ℚ) (s : ConnState) : ConnState :=
  let fast1 : UID → ℚ := fun u => if s.alive u then 1 else s.fastRelSus u
  let fast2 : UID → ℚ := fun u =>
    if s.alive u && s.slowInfected u then factor else fast1 u
  let slow1 : UID → ℚ := fun u => if s.alive u then 1 else s.slowRelSus u
  let slow2 : UID → ℚ := fun u =>
    if s.alive u && s.fastInfected u then factor else slow1 u
  { s with fastRelSus := fast2, slowRelSus := slow2 }

/-- One operation on the zombie disease state, with the external base-class
behavior and draw outcomes it is invoked with. -/
inductive ZOp where
  | stepSt (B : ZState → ZState) (ti : ℚ)
  | setProg (P : ZState → List UID → ZState) (d : Draws) (ti : ℚ) (uids : List UID)
  | setCong (P : ZState → List UID → ZState) (d : Draws) (ti : ℚ) (uids : List UID)

/-- Apply one operation to the zombie disease state. -/
def ZOp.apply : ZOp → ZState → ZState
  | .stepSt B ti, s => Zombie.stepState B ti s
  | .setProg P d ti uids, s => Zombie.setPrognoses P d ti s uids
  | .setCong P d ti uids, s => Zombie.setCongenital P d ti s uids

/-- Run a sequence of operations on the zombie disease state. -/
def runOps (ops : List ZOp) (s : ZState) : ZState :=
  ops.foldl (fun t op => op.apply t) s

/-- The external base class does not know the subclass's counters: the
base-progression function embedded in an operation leaves `cum_congenital`
and `cum_deaths` unchanged. -/
def ZOp.CountersFixed : ZOp → Prop
  | .stepSt B _ => ∀ s, (B s).cumDeaths = s.cumDeaths ∧ (B s).cumCongenital = s.cumCongenital
  | .setProg P _ _ _ => ∀ s u, (P s u).cumDeaths = s.cumDeaths ∧ (P s u).cumCongenital = s.cumCongenital
  | .setCong P _ _ _ => ∀ s u, (P s u).cumDeaths = s.cumDeaths ∧ (P s u).cumCongenital = s.cumCongenital

/-! Concrete inputs used by the witnesses and counterexamples below. -/

/-- A population of one living agent whose scheduled death time (0) is
strictly before the current step. -/
def zsA : ZState :=
  { ids := [0], alive := fun _ => true, tiDead := fun _ => some 0
    infected := fun _ => false, symptomatic := fun _ => false
    fast := fun _ => false, tiSlow := fun _ => none
    deathRequests := [], cumCongenital := 0, cumDeaths := 0 }

/-- A population of one dead agent that is infected, fast and whose
fast-to-slow time (0) has arrived. -/
def zsB : ZState :=
  { ids := [0], alive := fun _ => false, tiDead := fun _ => none
    infected := fun _ => true, symptomatic := fun _ => false
    fast := fun _ => true, tiSlow := fun _ => some 0
    deathRequests := [], cumCongenital := 0, cumDeaths := 0 }

/-- Two living infected fast agents: agent 0's fast-to-slow time has
arrived, agent 1's (step 5) has not. -/
def zsC : ZState :=
  { ids := [0, 1], alive := fun _ => true, tiDead := fun _ => none
    infected := fun _ => true, symptomatic := fun _ => false
    fast := fun _ => true, tiSlow := fun u => if u == 0 then some 0 else some 5
    deathRequests := [], cumCongenital := 0, cumDeaths := 0 }

/-- Fixed draw outcomes: everyone symptomatic, fast duration 1, nobody dies
immediately on infection. -/
def drawsA : Draws :=
  { symp := fun _ => true, durFast := fun _ => 1, deathOnInf := fun _ => false }

/-- The identity base-class behavior for `set_prognoses`. -/
def baseP : ZState → List UID → ZState := fun s _ => s

/-- A two-operation schedule: one `step_state` and one `set_congenital` on
two targets, both with identity base-class behavior. -/
def opsW : List ZOp :=
  [ZOp.stepSt id 0, ZOp.setCong baseP drawsA 0 [3, 4]]

/-- A disease module in which every agent is infected and symptomatic. -/
def zDisAll : Disease :=
  { infected := fun _ => true, symptomatic := fun _ => true, relSus := fun _ => 1 }

/-- A disease module in which nobody is infected or symptomatic. -/
def zDisNone : Disease :=
  { infected := fun _ => false, symptomatic := fun _ => false, relSus := fun _ => 1 }

/-- One dead agent, infected and symptomatic in the registered disease
`"zombie"`. -/
def simA : SimState :=
  { ids := [0], alive := fun _ => false, diseases := [("zombie", zDisAll)]
    deathRequests := [], drawLog := [] }

/-- Agent 0 living and agent 1 dead, both infected and symptomatic in the
registered disease `"slow_zombie"`. -/
def simB : SimState :=
  { ids := [0, 1], alive := fun u => u == 0, diseases := [("slow_zombie", zDisAll)]
    deathRequests := [], drawLog := [] }

/-- One living agent and a registered disease named exactly `"zombie"`. -/
def simC : SimState :=
  { ids := [0], alive := fun _ => true, diseases := [("zombie", zDisNone)]
    deathRequests := [], drawLog := [] }

/-- One living agent and no disease named exactly `"zombie"` (only
`"slow_zombie"`). -/
def simNoZ : SimState :=
  { ids := [0], alive := fun _ => true, diseases := [("slow_zombie", zDisNone)]
    deathRequests := [], drawLog := [] }

/-- A Bernoulli-filter oracle that selects every candidate. -/
def pdTrue : UID → Bool := fun _ => true

/-- One dead agent, infected by slow-zombie, with both relative
susceptibilities previously 5. -/
def connA : ConnState :=
  { ids := [0], alive := fun _ => false
    fastInfected := fun _ => false, slowInfected := fun _ => true
    fastRelSus := fun _ => 5, slowRelSus := fun _ => 5 }

/-- Two living agents: agent 0 infected by both variants, agent 1 by
neither. -/
def connB : ConnState :=
  { ids := [0, 1], alive := fun _ => true
    fastInfected := fun u => u == 0, slowInfected := fun u => u == 0
    fastRelSus := fun _ => 5, slowRelSus := fun _ => 5 }

/-! Claim theorems. -/

/-- C1 (amended): whenever the base-class progression leaves the subclass's
death counter alone, `step_state()` increments the cumulative death counter
by exactly the number of living agents whose death time is at or before the
current step. -/
theorem stepState_death_increment (B : ZState → ZState) (ti : ℚ) (s : ZState)
    (hB : ∀ t, (B t).cumDeaths = t.cumDeaths) :
    (Zombie.stepState B ti s).cumDeaths = s.cumDeaths + countDeathsLe s ti := by
  simp [Zombie.stepState, hB]

/-- C1 counterexample: at a state with a living agent whose death time (0)
is strictly before the current step (2), `step_state()` increments the death
counter by 1 while the number of agents whose death time equals the current
step is 0 — the increment is not the equals-count the claim states. -/
theorem stepState_death_increment_cex :
    (Zombie.stepState id 2 zsA).cumDeaths ≠ zsA.cumDeaths + countDeathsEqSpec zsA 2 := by
  decide

/-- C1 witness: the amended theorem applied at the identity base progression
and the concrete state `zsA` at step 2. -/
theorem stepState_death_increment_witness :
    (∀ t : ZState, (id t).cumDeaths = t.cumDeaths)
    ∧ (Zombie.stepState id 2 zsA).cumDeaths = zsA.cumDeaths + countDeathsLe zsA 2 :=
  ⟨fun _ => rfl, stepState_death_increment id 2 zsA (fun _ => rfl)⟩

/-- C5 (amended): whenever the base-class progression leaves `alive`,
`infected`, `fast` and `ti_slow` alone, `step_state()` sets `fast` to false
for every living infected agent that is fast with `scheduled_slow_time` at
or before the current time, and leaves the `fast` flag of every agent whose
`scheduled_slow_time` is strictly after the current time unchanged. -/
theorem stepState_fast_to_slow (B : ZState → ZState) (ti : ℚ) (s : ZState)
    (hAl : ∀ t, (B t).alive = t.alive) (hIn : ∀ t, (B t).infected = t.infected)
    (hFa : ∀ t, (B t).fast = t.fast) (hSl : ∀ t, (B t).tiSlow = t.tiSlow) :
    (∀ u, s.alive u = true → s.infected u = true → s.fast u = true →
      tiLe (s.tiSlow u) ti = true → (Zombie.stepState B ti s).fast u = false)
    ∧ (∀ u t, s.tiSlow u = some t → ti < t →
      (Zombie.stepState B ti s).fast u = s.fast u) := by
  constructor
  · intro u ha hi hf ht
    simp [Zombie.stepState, hAl, hIn, hFa, hSl, ha, hi, hf, ht]
  · intro u t hs hlt
    have hle : tiLe (s.tiSlow u) ti = false := by
      simp only [hs, tiLe, decide_eq_false_iff_not]
      linarith
    simp [Zombie.stepState, hAl, hIn, hFa, hSl, hle]

/-- C5 counterexample: a dead agent that is infected, fast and whose
fast-to-slow time (0) is at or before the current step (1) still has
`fast == true` after `step_state()` — the flip only reaches living
agents. -/
theorem stepState_fast_to_slow_cex :
    zsB.infected 0 = true ∧ zsB.fast 0 = true ∧ tiLe (zsB.tiSlow 0) 1 = true
    ∧ (Zombie.stepState id 1 zsB).fast 0 = true := by
  refine ⟨rfl, rfl, by decide, by decide⟩

/-- C5 witness: the amended theorem applied at the identity base progression
and the concrete state `zsC` at step 1: living agent 0 (due at 0) flips to
slow, agent 1 (due at 5) is unchanged. -/
theorem stepState_fast_to_slow_witness :
    ((zsC.alive 0 = true ∧ zsC.infected 0 = true ∧ zsC.fast 0 = true
        ∧ tiLe (zsC.tiSlow 0) 1 = true)
      ∧ (zsC.tiSlow 1 = some 5 ∧ (1:ℚ) < 5))
    ∧ (Zombie.stepState id 1 zsC).fast 0 = false
    ∧ (Zombie.stepState id 1 zsC).fast 1 = zsC.fast 1 := by
  refine ⟨⟨⟨rfl, rfl, rfl, by decide⟩, ⟨by decide, by norm_num⟩⟩, ?_, ?_⟩
  · exact (stepState_fast_to_slow id 1 zsC (fun _ => rfl) (fun _ => rfl)
      (fun _ => rfl) (fun _ => rfl)).1 0 rfl rfl rfl (by decide)
  · exact (stepState_fast_to_slow id 1 zsC (fun _ => rfl) (fun _ => rfl)
      (fun _ => rfl) (fun _ => rfl)).2 1 5 (by decide) (by norm_num)

/-- Helper: `set_prognoses` commutes with overriding the congenital counter,
for any base-class behavior that neither reads nor writes that counter. -/
theorem setPrognoses_congenital_comm (P : ZState → List UID → ZState) (d : Draws)
    (ti : ℚ) (s : ZState) (uids : List UID) (c : ℕ)
    (hP : ∀ t c' us, P { t with cumCongenital := c' } us
        = { P t us with cumCongenital := c' }) :
    Zombie.setPrognoses P d ti { s with cumCongenital := c } uids
      = { Zombie.setPrognoses P d ti s uids with cumCongenital := c } := by
  unfold Zombie.setPrognoses requestDeathZ
  rw [hP]

/-- C6: `set_congenital(ids)` increases the cumulative congenital counter by
exactly `len(ids)` and produces the same outcome as `set_prognoses(ids)`
called directly with the same random draws on every other component of the
state (symptomatic draws, fast-to-slow schedule, immediate-death subset and
death requests, death-counter increment), for any base-class behavior that
neither reads nor writes the congenital counter. -/
theorem setCongenital_delegates (P : ZState → List UID → ZState) (d : Draws)
    (ti : ℚ) (s : ZState) (uids : List UID)
    (hP : ∀ t c us, P { t with cumCongenital := c } us
        = { P t us with cumCongenital := c }) :
    (Zombie.setCongenital P d ti s uids).cumCongenital = s.cumCongenital + uids.length
    ∧ (Zombie.setCongenital P d ti s uids).ids = (Zombie.setPrognoses P d ti s uids).ids
    ∧ (Zombie.setCongenital P d ti s uids).alive = (Zombie.setPrognoses P d ti s uids).alive
    ∧ (Zombie.setCongenital P d ti s uids).tiDead = (Zombie.setPrognoses P d ti s uids).tiDead
    ∧ (Zombie.setCongenital P d ti s uids).infected = (Zombie.setPrognoses P d ti s uids).infected
    ∧ (Zombie.setCongenital P d ti s uids).symptomatic = (Zombie.setPrognoses P d ti s uids).symptomatic
    ∧ (Zombie.setCongenital P d ti s uids).fast = (Zombie.setPrognoses P d ti s uids).fast
    ∧ (Zombie.setCongenital P d ti s uids).tiSlow = (Zombie.setPrognoses P d ti s uids).tiSlow
    ∧ (Zombie.setCongenital P d ti s uids).deathRequests = (Zombie.setPrognoses P d ti s uids).deathRequests
    ∧ (Zombie.setCongenital P d ti s uids).cumDeaths = (Zombie.setPrognoses P d ti s uids).cumDeaths := by
  have key : Zombie.setCongenital P d ti s uids
      = { Zombie.setPrognoses P d ti s uids with
          cumCongenital := s.cumCongenital + uids.length } := by
    unfold Zombie.setCongenital
    exact setPrognoses_congenital_comm P d ti s uids _ hP
  rw [key]
  exact ⟨rfl, rfl, rfl, rfl, rfl, rfl, rfl, rfl, rfl, rfl⟩

/-- C6 witness: the theorem applied at the identity base behavior, the draws
`drawsA`, the state `zsC` and targets `[0, 1]`. -/
theorem setCongenital_delegates_witness :
    (∀ t c us, baseP { t with cumCongenital := c } us
        = { baseP t us with cumCongenital := c })
    ∧ (Zombie.setCongenital baseP drawsA 0 zsC [0, 1]).cumCongenital
        = zsC.cumCongenital + [0, 1].length
    ∧ (Zombie.setCongenital baseP drawsA 0 zsC [0, 1]).symptomatic
        = (Zombie.setPrognoses baseP drawsA 0 zsC [0, 1]).symptomatic
    ∧ (Zombie.setCongenital baseP drawsA 0 zsC [0, 1]).cumDeaths
        = (Zombie.setPrognoses baseP drawsA 0 zsC [0, 1]).cumDeaths := by
  have h := setCongenital_delegates baseP drawsA 0 zsC [0, 1] (fun _ _ _ => rfl)
  exact ⟨fun _ _ _ => rfl, h.1, h.2.2.2.2.2.1, h.2.2.2.2.2.2.2.2.2⟩

/-- Helper: a single operation never decreases either cumulative counter,
given base-class behavior that leaves the counters alone. -/
theorem counters_mono_one (op : ZOp) (s : ZState) (h : op.CountersFixed) :
    s.cumDeaths ≤ (op.apply s).cumDeaths
    ∧ s.cumCongenital ≤ (op.apply s).cumCongenital := by
  cases op with
  | stepSt B ti =>
      simp only [ZOp.CountersFixed] at h
      constructor <;>
        simp [ZOp.apply, Zombie.stepState, (h _).1, (h _).2]
  | setProg P d ti uids =>
      simp only [ZOp.CountersFixed] at h
      constructor <;>
        simp [ZOp.apply, Zombie.setPrognoses, requestDeathZ, (h _ _).1, (h _ _).2]
  | setCong P d ti uids =>
      simp only [ZOp.CountersFixed] at h
      constructor <;>
        simp [ZOp.apply, Zombie.setCongenital, Zombie.setPrognoses, requestDeathZ,
          (h _ _).1, (h _ _).2]

/-- C9: over any sequence of `step_state` / `set_prognoses` /
`set_congenital` calls whose base-class behaviors leave the counters alone,
the cumulative congenital and death counters are monotonically
non-decreasing. -/
theorem counters_monotone (ops : List ZOp) (s : ZState)
    (h : ∀ op ∈ ops, op.CountersFixed) :
    s.cumDeaths ≤ (runOps ops s).cumDeaths
    ∧ s.cumCongenital ≤ (runOps ops s).cumCongenital := by
  induction ops generalizing s with
  | nil => exact ⟨le_refl _, le_refl _⟩
  | cons op rest ih =>
      have h1 := counters_mono_one op s (h op (List.mem_cons_self op rest))
      have h2 := ih (op.apply s) (fun o ho => h o (List.mem_cons_of_mem op ho))
      have hrun : runOps (op :: rest) s = runOps rest (op.apply s) := rfl
      rw [hrun]
      exact ⟨le_trans h1.1 h2.1, le_trans h1.2 h2.2⟩

/-- C9 witness: the theorem applied to the two-operation schedule `opsW`
starting at `zsA`, whose embedded base behaviors are identities. -/
theorem counters_monotone_witness :
    (∀ op ∈ opsW, op.CountersFixed)
    ∧ zsA.cumDeaths ≤ (runOps opsW zsA).cumDeaths
    ∧ zsA.cumCongenital ≤ (runOps opsW zsA).cumCongenital := by
  have h : ∀ op ∈ opsW, op.CountersFixed := by
    intro op hop
    simp only [opsW, List.mem_cons, List.mem_singleton, List.not_mem_nil, or_false] at hop
    rcases hop with h | h <;> subst h
    · exact fun _ => ⟨rfl, rfl⟩
    · exact fun _ _ => ⟨rfl, rfl⟩
  have h2 := counters_monotone opsW zsA h
  exact ⟨h, h2.1, h2.2⟩

/-- C2 (amended): strictly before the first curve year, `KillZombies.step()`
returns with no value (Python `None`) and leaves the simulation state
untouched: no candidate set is passed to the Bernoulli filter and no death
request is issued. -/
theorem killStep_before_curve (year0 nowYear : ℚ) (pdraw : UID → Bool)
    (sim : SimState) (h : nowYear < year0) :
    killStep year0 pdraw nowYear sim = (none, sim) := by
  simp [killStep, h]

/-- C2 counterexample: at year 2020 with first curve year 2030,
`KillZombies.step()` does not return the value 0 — it returns no value at
all (it still draws nothing and changes nothing). -/
theorem killStep_before_curve_cex :
    (killStep 2030 pdTrue 2020 simB).1 ≠ some 0
    ∧ (killStep 2030 pdTrue 2020 simB).2 = simB := by
  have h : (2020:ℚ) < 2030 := by norm_num
  constructor
  · simp [killStep, h]
  · simp [killStep, h]

/-- C2 witness: the amended theorem applied at first curve year 2030,
current year 2020, the all-true filter oracle and the population `simB`. -/
theorem killStep_before_curve_witness :
    (2020:ℚ) < 2030 ∧ killStep 2030 pdTrue 2020 simB = (none, simB) :=
  ⟨by norm_num, killStep_before_curve 2030 2020 pdTrue simB (by norm_num)⟩

/-- Helper: the eligibility fold of `KillZombies.step` is the OR of its
start mask with the union over zombie-named diseases. -/
theorem killFold_eq (u : UID) (L : List (String × Disease)) (b : Bool) :
    L.foldl (fun acc nd =>
        if containsZombie nd.1 then acc || (nd.2.infected u && nd.2.symptomatic u)
        else acc) b
      = (b || L.any (fun nd =>
          containsZombie nd.1 && nd.2.infected u && nd.2.symptomatic u)) := by
  induction L generalizing b with
  | nil => simp
  | cons nd L ih =>
      simp only [List.foldl_cons, List.any_cons, ih]
      cases hc : containsZombie nd.1 <;> simp [hc, Bool.or_assoc]

/-- Helper: the eligibility mask, in closed form. -/
theorem killEligibleMask_eq (sim : SimState) (u : UID) :
    killEligibleMask sim u
      = ((!sim.alive u) || sim.diseases.any (fun nd =>
          containsZombie nd.1 && nd.2.infected u && nd.2.symptomatic u)) := by
  unfold killEligibleMask
  exact killFold_eq u sim.diseases _

/-- C3 (amended): at or after the first curve year, the set
`KillZombies.step()` passes to the probability filter is exactly the living
agents that are infected and symptomatic in at least one registered disease
whose name contains "zombie" — in particular no dead agent is eligible. -/
theorem killStep_eligible (year0 nowYear : ℚ) (pdraw : UID → Bool)
    (sim : SimState) (h : ¬ nowYear < year0) :
    (killStep year0 pdraw nowYear sim).2.drawLog
        = sim.drawLog ++ [killEligibleUids sim]
    ∧ ∀ u, u ∈ killEligibleUids sim ↔
        (u ∈ sim.ids ∧ sim.alive u = true
          ∧ sim.diseases.any (fun nd =>
              containsZombie nd.1 && nd.2.infected u && nd.2.symptomatic u) = true) := by
  constructor
  · simp [killStep, h, requestDeath]
  · intro u
    simp only [killEligibleUids, List.mem_filter, killEligibleMask_eq,
      Bool.and_eq_true, Bool.or_eq_true]
    cases ha : sim.alive u <;> simp [ha]

/-- C3 counterexample: a dead agent infected and symptomatic in the disease
"zombie" belongs to the spec-worded union but not to the eligible set the
step passes to the filter — the two sets differ. -/
theorem killStep_eligible_cex :
    killEligibleUids simA = [] ∧ specEligibleUids simA = [0]
    ∧ killEligibleUids simA ≠ specEligibleUids simA :=
  ⟨by decide, by decide, by decide⟩

/-- C3 witness: the amended theorem applied at first curve year 2030,
current year 2035, the all-true filter oracle and the population `simB`
(living agent 0, dead agent 1, one slow-zombie disease). -/
theorem killStep_eligible_witness :
    ¬ (2035:ℚ) < 2030
    ∧ (killStep 2030 pdTrue 2035 simB).2.drawLog
        = simB.drawLog ++ [killEligibleUids simB]
    ∧ (0 ∈ killEligibleUids simB ↔
        (0 ∈ simB.ids ∧ simB.alive 0 = true
          ∧ simB.diseases.any (fun nd =>
              containsZombie nd.1 && nd.2.infected 0 && nd.2.symptomatic 0) = true)) := by
  have h : ¬ (2035:ℚ) < 2030 := by norm_num
  have hth := killStep_eligible 2030 2035 pdTrue simB h
  exact ⟨h, hth.1, hth.2 0⟩

/-- C4: in `DeathZombies.step()`, the dual-partition Bernoulli filter's two
classes `zombie_ids` and `death_ids` are disjoint, their union is exactly
the death candidates (the death-rate-filtered living non-zombie agents), for
every draw oracle, and the step returns the number of natural deaths
`len(death_ids)`. -/
theorem deathStep_partition (drawDeath drawZombie : UID → Bool) (sim : SimState) :
    (∀ u, u ∈ (deathStep drawDeath drawZombie sim).zombieUids →
        u ∉ (deathStep drawDeath drawZombie sim).deathUids)
    ∧ (∀ u, u ∈ (notZombieUids sim).filter drawDeath ↔
        (u ∈ (deathStep drawDeath drawZombie sim).zombieUids
          ∨ u ∈ (deathStep drawDeath drawZombie sim).deathUids))
    ∧ (deathStep drawDeath drawZombie sim).ret
        = (deathStep drawDeath drawZombie sim).deathUids.length := by
  refine ⟨?_, ?_, rfl⟩
  · intro u hz hd
    simp only [deathStep, List.mem_filter] at hz hd
    rw [hz.2] at hd
    simp at hd
  · intro u
    simp only [deathStep, List.mem_filter]
    cases hdz : drawZombie u <;> simp [hdz]

/-- C4 witness: the theorem applied to the population `simC` with the
all-true death-rate oracle and the conversion draw selecting agent 0; agent
0 is a death candidate, lands in `zombie_ids` and not in `death_ids`. -/
theorem deathStep_partition_witness :
    (deathStep pdTrue (fun u => u == 0) simC).ret
        = (deathStep pdTrue (fun u => u == 0) simC).deathUids.length
    ∧ (0 ∈ (notZombieUids simC).filter pdTrue ↔
        (0 ∈ (deathStep pdTrue (fun u => u == 0) simC).zombieUids
          ∨ 0 ∈ (deathStep pdTrue (fun u => u == 0) simC).deathUids))
    ∧ 0 ∈ (deathStep pdTrue (fun u => u == 0) simC).zombieUids
    ∧ 0 ∉ (deathStep pdTrue (fun u => u == 0) simC).deathUids :=
  ⟨(deathStep_partition pdTrue (fun u => u == 0) simC).2.2,
   (deathStep_partition pdTrue (fun u => u == 0) simC).2.1 0,
   by decide,
   (deathStep_partition pdTrue (fun u => u == 0) simC).1 0 (by decide)⟩

/-- C7 (amended): after the connector's step, every living agent infected by
slow-zombie has fast-zombie relative susceptibility equal to the configured
factor and every living agent not infected by slow-zombie has it equal to 1;
symmetrically with the two variants swapped. -/
theorem connector_cross_immunity (factor : ℚ) (s : ConnState) (u : UID) :
    (s.alive u = true → s.slowInfected u = true →
        (connectorStep factor s).fastRelSus u = factor)
    ∧ (s.alive u = true → s.slowInfected u = false →
        (connectorStep factor s).fastRelSus u = 1)
    ∧ (s.alive u = true → s.fastInfected u = true →
        (connectorStep factor s).slowRelSus u = factor)
    ∧ (s.alive u = true → s.fastInfected u = false →
        (connectorStep factor s).slowRelSus u = 1) := by
  refine ⟨fun ha hi => ?_, fun ha hi => ?_, fun ha hi => ?_, fun ha hi => ?_⟩ <;>
    simp [connectorStep, ha, hi]

/-- C7 counterexample: a dead agent infected by slow-zombie keeps its old
fast-zombie relative susceptibility (5) after the connector's step with
factor 0 — the factor is only written for living infected agents. -/
theorem connector_cross_immunity_cex :
    connA.slowInfected 0 = true
    ∧ (connectorStep 0 connA).fastRelSus 0 = 5
    ∧ (5:ℚ) ≠ 0 :=
  ⟨rfl, by decide, by norm_num⟩

/-- C7 witness: the amended theorem applied with factor 1/2 to the
two-agent population `connB`, at the infected agent 0 and the uninfected
agent 1. -/
theorem connector_cross_immunity_witness :
    (connB.alive 0 = true ∧ connB.slowInfected 0 = true
      ∧ (connectorStep (1/2) connB).fastRelSus 0 = 1/2)
    ∧ (connB.alive 1 = true ∧ connB.slowInfected 1 = false
      ∧ (connectorStep (1/2) connB).fastRelSus 1 = 1)
    ∧ (connB.fastInfected 0 = true
      ∧ (connectorStep (1/2) connB).slowRelSus 0 = 1/2)
    ∧ (connB.fastInfected 1 = false
      ∧ (connectorStep (1/2) connB).slowRelSus 1 = 1) :=
  ⟨⟨rfl, rfl, (connector_cross_immunity (1/2) connB 0).1 rfl rfl⟩,
   ⟨rfl, rfl, (connector_cross_immunity (1/2) connB 1).2.1 rfl rfl⟩,
   ⟨rfl, (connector_cross_immunity (1/2) connB 0).2.2.1 rfl rfl⟩,
   ⟨rfl, (connector_cross_immunity (1/2) connB 1).2.2.2 rfl rfl⟩⟩

/-- Helper: finding the `"zombie"` entry commutes with the zombie-entry
update map. -/
theorem find_map_upd (g : Disease → Disease) (L : List (String × Disease)) :
    (L.map (fun nd => if nd.1 == "zombie" then (nd.1, g nd.2) else nd)).find?
        (fun nd => nd.1 == "zombie")
      = (L.find? (fun nd => nd.1 == "zombie")).map
          (fun nd => (nd.1, g nd.2)) := by
  induction L with
  | nil => rfl
  | cons nd L ih =>
      simp only [List.map_cons, List.find?_cons]
      cases h : (nd.1 == "zombie")
      · rw [if_neg (by simp), h]
        exact ih
      · have h' : ((nd.1, g nd.2).1 == "zombie") = true := h
        rw [if_pos rfl, h']
        rfl

/-- Helper: the zombie lookup after a vaccine update. -/
theorem zombieLookup_vaccUpdate (eff : ℚ) (leaky : Bool) (vd : UID → Bool)
    (uids : List UID) (sim : SimState) :
    zombieLookup (vaccUpdate eff leaky vd uids sim)
      = (zombieLookup sim).map
          (fun nd => (nd.1, vaccApply eff leaky vd uids nd.2)) := by
  unfold zombieLookup vaccUpdate
  exact find_map_upd _ sim.diseases

/-- C8: with the leaky vaccine of efficacy `e`, each administration
multiplies an administered agent's zombie relative susceptibility by
`(1 - e)`, and administering twice multiplies the original susceptibility by
`(1 - e)^2`. -/
theorem leaky_vaccine_compounds (eff : ℚ) (vd : UID → Bool) (uids : List UID)
    (sim : SimState) (nd : String × Disease) (u : UID)
    (h : zombieLookup sim = some nd) (hu : u ∈ uids) :
    ∃ sim1 sim2,
      administer eff true vd uids sim = some sim1
      ∧ zombieRelSus sim1 u = some (nd.2.relSus u * (1 - eff))
      ∧ administer eff true vd uids sim1 = some sim2
      ∧ zombieRelSus sim2 u = some (nd.2.relSus u * (1 - eff) ^ 2) := by
  have hl1 : zombieLookup (vaccUpdate eff true vd uids sim)
      = some (nd.1, vaccApply eff true vd uids nd.2) := by
    rw [zombieLookup_vaccUpdate, h, Option.map_some']
  have hl2 : zombieLookup
        (vaccUpdate eff true vd uids (vaccUpdate eff true vd uids sim))
      = some (nd.1, vaccApply eff true vd uids (vaccApply eff true vd uids nd.2)) := by
    rw [zombieLookup_vaccUpdate, hl1, Option.map_some']
  refine ⟨vaccUpdate eff true vd uids sim,
    vaccUpdate eff true vd uids (vaccUpdate eff true vd uids sim),
    by simp [administer, h], ?_, by simp [administer, hl1], ?_⟩
  · rw [zombieRelSus, hl1, Option.map_some']
    simp [vaccApply, vaccFactor, hu]
  · rw [zombieRelSus, hl2, Option.map_some']
    simp [vaccApply, vaccFactor, hu]
    ring

/-- C8 witness: the theorem applied to `simC` (one registered `"zombie"`
disease with unit susceptibility) with efficacy 1/4 administered twice to
agent 0. -/
theorem leaky_vaccine_compounds_witness :
    zombieLookup simC = some ("zombie", zDisNone)
    ∧ (0:UID) ∈ [0]
    ∧ ∃ sim1 sim2,
      administer (1/4) true pdTrue [0] simC = some sim1
      ∧ zombieRelSus sim1 0 = some (zDisNone.relSus 0 * (1 - 1/4))
      ∧ administer (1/4) true pdTrue [0] sim1 = some sim2
      ∧ zombieRelSus sim2 0 = some (zDisNone.relSus 0 * (1 - 1/4) ^ 2) :=
  ⟨rfl, by decide,
    leaky_vaccine_compounds (1/4) pdTrue [0] simC ("zombie", zDisNone) 0 rfl (by decide)⟩

/-- C10: `administer` fails by the missing-attribute lookup when no disease
named exactly `"zombie"` is registered; on success it leaves the agent
registry, alive flags, death requests, draw trace, every disease not named
`"zombie"`, the zombie disease's infection and symptomatic arrays, and the
zombie relative susceptibility of every agent outside the administered set
unchanged. -/
theorem administer_frame (eff : ℚ) (leaky : Bool) (vd : UID → Bool)
    (uids : List UID) (sim : SimState) :
    (zombieLookup sim = none → administer eff leaky vd uids sim = none)
    ∧ ∀ sim', administer eff leaky vd uids sim = some sim' →
        sim'.ids = sim.ids ∧ sim'.alive = sim.alive
        ∧ sim'.deathRequests = sim.deathRequests ∧ sim'.drawLog = sim.drawLog
        ∧ ∀ (i : ℕ) (nd : String × Disease), sim.diseases[i]? = some nd →
            ∃ nd' : String × Disease, sim'.diseases[i]? = some nd'
              ∧ nd'.1 = nd.1
              ∧ ((nd.1 == "zombie") = false → nd' = nd)
              ∧ nd'.2.infected = nd.2.infected
              ∧ nd'.2.symptomatic = nd.2.symptomatic
              ∧ ∀ u, u ∉ uids → nd'.2.relSus u = nd.2.relSus u := by
  constructor
  · intro h
    simp [administer, h]
  · intro sim' hs
    cases hz : zombieLookup sim with
    | none => simp [administer, hz] at hs
    | some nd0 =>
        simp only [administer, hz, Option.some_inj] at hs
        subst hs
        refine ⟨rfl, rfl, rfl, rfl, ?_⟩
        intro i nd hi
        refine ⟨if nd.1 == "zombie" then (nd.1, vaccApply eff leaky vd uids nd.2)
                else nd, ?_, ?_, ?_, ?_, ?_, ?_⟩
        · simp [vaccUpdate, List.getElem?_map, hi]
        · cases h : (nd.1 == "zombie") <;> simp [h]
        · intro h; simp [h]
        · cases h : (nd.1 == "zombie") <;> simp [h, vaccApply]
        · cases h : (nd.1 == "zombie") <;> simp [h, vaccApply]
        · intro u hu
          cases h : (nd.1 == "zombie") <;> simp [h, vaccApply, hu]

/-- C10 witness: the theorem applied to `simNoZ` (no `"zombie"` disease:
the lookup fails) and to `simC` (a `"zombie"` disease: the frame facts
hold). -/
theorem administer_frame_witness :
    administer (1/4) true pdTrue [0] simNoZ = none
    ∧ ∃ sim', administer (1/4) true pdTrue [0] simC = some sim'
        ∧ sim'.alive = simC.alive ∧ sim'.deathRequests = simC.deathRequests := by
  constructor
  · exact (administer_frame (1/4) true pdTrue [0] simNoZ).1 rfl
  · refine ⟨vaccUpdate (1/4) true pdTrue [0] simC, rfl, ?_, ?_⟩
    · exact ((administer_frame (1/4) true pdTrue [0] simC).2 _ rfl).2.1
    · exact ((administer_frame (1/4) true pdTrue [0] simC).2 _ rfl).2.2.1

end ZombieSim
